import Mathlib

/-!
Verification of the quest_log shared infrastructure layer: the message-bus
connection (src/common/messaging.py), the circuit breaker
(src/common/resilience.py), the rate limiter (src/common/rate_limit.py) and
the CQRS buses (src/common/cqrs.py), shallowly embedded in Lean 4.
Machine floats of the source are modelled as rationals, Python ints as Int
or Nat, raised exceptions as Option / Except values.
-/

namespace QuestLog

/-- JSON tree, the payload universe of the wire format produced by
json.dumps / json.loads in src/common/messaging.py.  Numbers are modelled
as integers (no claim depends on float payloads). -/
inductive Json where
  | null : Json
  | bool : Bool → Json
  | num : Int → Json
  | str : String → Json
  | arr : List Json → Json
  | obj : List (String × Json) → Json

/-- MessageType enum of src/common/messaging.py (a str Enum, so it
serializes as its string value). -/
inductive MessageType where
  | command : MessageType
  | event : MessageType
  | query : MessageType
  | response : MessageType
deriving DecidableEq

/-- Wire string of a MessageType value, as json.dumps renders the str Enum. -/
def MessageType.toWireStr : MessageType → String
  | .command => "command"
  | .event => "event"
  | .query => "query"
  | .response => "response"

/-- Parse a wire string back into a MessageType, as pydantic validation of
the type field does. -/
def MessageType.ofWireStr (s : String) : Option MessageType :=
  if s = "command" then some .command
  else if s = "event" then some .event
  else if s = "query" then some .query
  else if s = "response" then some .response
  else none

/-- Message model of src/common/messaging.py lines 24-31: id (uuid string),
type, name, data (opaque payload), optional correlation_id and reply_to. -/
structure Message where
  id : String
  type : MessageType
  name : String
  data : Json
  correlation_id : Option String := none
  reply_to : Option String := none

/-- Encoding of an optional string field under json.dumps: None becomes
JSON null, a string stays a string. -/
def optStrJson : Option String → Json
  | none => Json.null
  | some s => Json.str s

/-- Serialization Message.dict() followed by json.dumps, modelled as the
resulting JSON tree (json.dumps / json.loads is the identity on the tree). -/
def Message.toWire (m : Message) : Json :=
  Json.obj [("id", Json.str m.id),
            ("type", Json.str m.type.toWireStr),
            ("name", Json.str m.name),
            ("data", m.data),
            ("correlation_id", optStrJson m.correlation_id),
            ("reply_to", optStrJson m.reply_to)]

/-- Read a mandatory string field. -/
def asStr : Json → Option String
  | .str s => some s
  | _ => none

/-- Read an optional string field: JSON null parses to none, a string to
some. -/
def asOptStr : Json → Option (Option String)
  | .null => some none
  | .str s => some (some s)
  | _ => none

/-- Deserialization json.loads followed by pydantic validation
Message(**body): every field of the wire object is read back; an absent
correlation_id or reply_to takes the pydantic default None. -/
def Message.fromWire (j : Json) : Option Message :=
  match j with
  | .obj fields => do
    let idJ ← fields.lookup "id"
    let i ← asStr idJ
    let tJ ← fields.lookup "type"
    let ts ← asStr tJ
    let t ← MessageType.ofWireStr ts
    let nJ ← fields.lookup "name"
    let n ← asStr nJ
    let d ← fields.lookup "data"
    let c ← asOptStr ((fields.lookup "correlation_id").getD Json.null)
    let r ← asOptStr ((fields.lookup "reply_to").getD Json.null)
    some { id := i, type := t, name := n, data := d,
           correlation_id := c, reply_to := r }
  | _ => none

/-! Query RPC model, src/common/messaging.py.

send_query (lines 262-297) draws a fresh uuid correlation_id, registers a
pending future under that correlation_id in the futures map, and publishes
a query Message whose own id field is another, independent fresh uuid
(Message id default_factory).  The receiver _handle_query (lines 162-190)
builds a Response whose correlation_id -- both the Message field and the
AMQP property read back by _process_response -- is body.get("id"), the
query MESSAGE id, not body.get("correlation_id").  _process_response
(lines 138-150) pops and resolves a future only when the incoming AMQP
correlation_id is a key of the futures map. -/

/-- Query message built by send_query: id is one fresh uuid (mid), the
correlation_id another (cid), reply_to the callback queue name. -/
def send_query_message (query_name : String) (d : Json)
    (cid : String) (callback_queue : String) (mid : String) : Message :=
  { id := mid, type := MessageType.query, name := query_name, data := d,
    correlation_id := some cid, reply_to := some callback_queue }

/-- Futures map after send_query registers its pending future: the fresh
correlation_id is added to the pending keys. -/
def register_future (futures : List String) (cid : String) : List String :=
  cid :: futures

/-- Response published by _handle_query for query body and handler result:
the Message correlation_id field and the AMQP correlation_id property are
both set to body.get("id"); the routing key is body.get("reply_to"). -/
structure PublishedResponse where
  body : Message
  amqp_correlation_id : Option String
  routing_key : Option String

/-- Model of _handle_query lines 168-186 after the handler returned result:
the Response message and its AMQP publication properties. -/
def handle_query_response (body : Message) (result : Json)
    (fresh_id : String) : PublishedResponse :=
  { body := { id := fresh_id, type := MessageType.response,
              name := body.name ++ "_response", data := result,
              correlation_id := some body.id, reply_to := none },
    amqp_correlation_id := some body.id,
    routing_key := body.reply_to }

/-- Model of _process_response: pop and resolve the future keyed by the
incoming AMQP correlation_id when present, else log and drop.  Returns the
remaining pending keys and the resolved payload, if any. -/
def process_response (futures : List String)
    (corr : Option String) (respBody : Json) : List String × Option Json :=
  match corr with
  | some cid =>
      if cid ∈ futures then (futures.erase cid, some respBody)
      else (futures, none)
  | none => (futures, none)

/-! Circuit breaker, src/common/resilience.py lines 12-111.  Wall-clock
time (time.time()) is passed explicitly as a rational now; the state
property has a side effect (lazy OPEN to HALF_OPEN transition) and is
modelled as readState returning the updated breaker together with the
observed state.  Python truthiness of _last_failure_time (0.0 is falsy)
is modelled by the t not-zero guard. -/

/-- CircuitState enum of src/common/resilience.py. -/
inductive CircuitState where
  | closed : CircuitState
  | open : CircuitState
  | halfOpen : CircuitState
deriving DecidableEq

/-- CircuitBreakerConfig of src/common/resilience.py lines 19-32, with the
source defaults. -/
structure CircuitBreakerConfig where
  failure_threshold : Nat := 5
  recovery_timeout : ℚ := 30
  success_threshold : Nat := 2
  half_open_max_requests : Nat := 1

/-- CircuitBreaker dataclass fields of src/common/resilience.py lines
35-51. -/
structure CircuitBreaker where
  name : String
  config : CircuitBreakerConfig
  state : CircuitState := CircuitState.closed
  failure_count : Nat := 0
  success_count : Nat := 0
  last_failure_time : Option ℚ := none
  half_open_requests : Nat := 0

/-- Model of the state property (lines 53-64): when OPEN, with a truthy
last failure time, and the recovery timeout elapsed, transition to
HALF_OPEN and zero the half-open request counter; return the updated
breaker and the observed state. -/
def readState (cb : CircuitBreaker) (now : ℚ) : CircuitBreaker × CircuitState :=
  match cb.state, cb.last_failure_time with
  | CircuitState.open, some t =>
      if t ≠ 0 ∧ now - t ≥ cb.config.recovery_timeout then
        ({ cb with state := CircuitState.halfOpen, half_open_requests := 0 },
         CircuitState.halfOpen)
      else (cb, CircuitState.open)
  | _, _ => (cb, cb.state)

/-- Model of record_success (lines 66-78). -/
def record_success (cb : CircuitBreaker) (now : ℚ) : CircuitBreaker :=
  let p := readState cb now
  match p.2 with
  | CircuitState.closed => { p.1 with failure_count := 0 }
  | CircuitState.halfOpen =>
      let s := p.1.success_count + 1
      if s ≥ p.1.config.success_threshold then
        { p.1 with state := CircuitState.closed,
                   failure_count := 0, success_count := 0 }
      else { p.1 with success_count := s }
  | CircuitState.open => p.1

/-- Model of record_failure (lines 80-94): stamp last_failure_time first,
then branch on the (lazily refreshed) state. -/
def record_failure (cb : CircuitBreaker) (now : ℚ) : CircuitBreaker :=
  let p := readState { cb with last_failure_time := some now } now
  match p.2 with
  | CircuitState.closed =>
      let f := p.1.failure_count + 1
      if f ≥ p.1.config.failure_threshold then
        { p.1 with state := CircuitState.open, failure_count := f }
      else { p.1 with failure_count := f }
  | CircuitState.halfOpen =>
      { p.1 with state := CircuitState.open, success_count := 0 }
  | CircuitState.open => p.1

/-- Model of allow_request (lines 96-111). -/
def allow_request (cb : CircuitBreaker) (now : ℚ) : CircuitBreaker × Bool :=
  let p := readState cb now
  match p.2 with
  | CircuitState.closed => (p.1, true)
  | CircuitState.open => (p.1, false)
  | CircuitState.halfOpen =>
      if p.1.half_open_requests < p.1.config.half_open_max_requests then
        ({ p.1 with half_open_requests := p.1.half_open_requests + 1 }, true)
      else (p.1, false)

/-- Breaker after n consecutive record_failure calls at time now. -/
def iterFailures (cb : CircuitBreaker) (now : ℚ) : Nat → CircuitBreaker
  | 0 => cb
  | n + 1 => record_failure (iterFailures cb now n) now

/-- Breaker after n consecutive record_success calls at time now. -/
def iterSuccesses (cb : CircuitBreaker) (now : ℚ) : Nat → CircuitBreaker
  | 0 => cb
  | n + 1 => record_success (iterSuccesses cb now n) now

/-- Breaker after n consecutive allow_request calls at time now. -/
def iterAllow (cb : CircuitBreaker) (now : ℚ) : Nat → CircuitBreaker
  | 0 => cb
  | n + 1 => (allow_request (iterAllow cb now n) now).1

/-- Boolean outcome of the (n+1)-st consecutive allow_request call. -/
def nthAllow (cb : CircuitBreaker) (now : ℚ) (n : Nat) : Bool :=
  (allow_request (iterAllow cb now n) now).2

/-! Rate limiter, src/common/rate_limit.py.  The Redis counter store is a
key/value map with per-key expiries; INCR, EXPIRE, GET, TTL follow Redis
semantics (TTL is -2 for a missing key, -1 for a key without expiry).  The
pipeline path and its sequential fallback issue the same commands, so one
sequence models both.  A raised ZeroDivisionError is modelled as none. -/

/-- Counter store consumed by the limiters: integer values plus per-key
expiry seconds. -/
structure CounterStore where
  val : String → Option Int
  expiry : String → Option Int

/-- Atomic INCR: missing keys count from 0; returns the new value. -/
def CounterStore.incr (s : CounterStore) (k : String) : CounterStore × Int :=
  let n := (s.val k).getD 0 + 1
  ({ s with val := fun q => if q = k then some n else s.val q }, n)

/-- EXPIRE: set the expiry of an existing key; no effect on a missing key. -/
def CounterStore.expire (s : CounterStore) (k : String) (w : Int) : CounterStore :=
  if (s.val k).isSome then
    { s with expiry := fun q => if q = k then some w else s.expiry q }
  else s

/-- TTL: -2 for a missing key, -1 for a key without expiry, else the
remaining seconds. -/
def CounterStore.ttl (s : CounterStore) (k : String) : Int :=
  match s.val k with
  | none => -2
  | some _ =>
    match s.expiry k with
    | none => -1
    | some w => w

/-- Fixed-window limiter, src/common/rate_limit.py lines 44-87: INCR the
key, set an expiry of window on the first increment, deny over the limit
with retry_after from TTL (window when the TTL is non-positive). -/
def fixed_window (s : CounterStore) (key : String) (limit window : Int) :
    CounterStore × (Bool × Int × Int) :=
  let p := s.incr key
  let s2 := if p.2 = 1 then p.1.expire key window else p.1
  if p.2 > limit then
    let t := s2.ttl key
    (s2, (false, 0, if t > 0 then t else window))
  else
    (s2, (true, limit - p.2, 0))

/-- Sliding-window limiter, src/common/rate_limit.py lines 89-152.  Python
floor division of ints is Int.fdiv; a zero divisor raises
ZeroDivisionError, modelled as none: first for window // bucket_count with
bucket_count = 0, then for timestamp // bucket_size with bucket_size = 0
(which happens whenever 0 ≤ window < bucket_count). -/
def sliding_window (s : CounterStore) (key : String)
    (limit window bucket_count : Int) (timestamp : Int) :
    Option (CounterStore × (Bool × Int × Int)) :=
  if bucket_count = 0 then none
  else
    let bucket_size := window.fdiv bucket_count
    if bucket_size = 0 then none
    else
      let current_bucket := timestamp.fdiv bucket_size
      let bucket_key := key ++ ":" ++ toString current_bucket
      let p := s.incr bucket_key
      let s2 := p.1.expire bucket_key window
      let window_start_bucket := current_bucket - bucket_count + 1
      let keys := (List.range bucket_count.toNat).map
        (fun i => key ++ ":" ++ toString (window_start_bucket + i))
      let total := (keys.map (fun k => (s2.val k).getD 0)).sum
      if total > limit then some (s2, (false, 0, bucket_size))
      else some (s2, (true, limit - total, 0))

/-- Token store consumed by the token bucket: float values (modelled as
rationals) plus per-key expiry seconds. -/
structure TokenStore where
  val : String → Option ℚ
  expiry : String → Option Int

/-- Python int() truncates toward zero. -/
def pyTrunc (q : ℚ) : Int := if 0 ≤ q then ⌊q⌋ else ⌈q⌉

/-- Refilled token count of src/common/rate_limit.py lines 177-197:
tokens default to limit and timestamp to now on first use, then
new_tokens = min(limit, tokens + (now - timestamp) * limit / window). -/
def refill_tokens (s : TokenStore) (key : String) (limit window : Int)
    (now : ℚ) : ℚ :=
  let tokens_value := (s.val (key ++ ":tokens")).getD limit
  let timestamp_value := (s.val (key ++ ":timestamp")).getD now
  min (limit : ℚ) (tokens_value + (now - timestamp_value) * (limit / window))

/-- Token-bucket limiter, src/common/rate_limit.py lines 154-225 (window
is positive in every configuration, keeping the rational division total
like the Python one).  Deny branch: retry_after = int(wait_time) + 1 with
wait_time = (1 - new_tokens) / token_rate.  Allow branch: consume one
token, persist both values with expiry max(2 * window, 600). -/
def token_bucket (s : TokenStore) (key : String) (limit window : Int)
    (now : ℚ) : TokenStore × (Bool × Int × Int) :=
  let tokens_key := key ++ ":tokens"
  let timestamp_key := key ++ ":timestamp"
  let token_rate : ℚ := (limit : ℚ) / (window : ℚ)
  let new_tokens := refill_tokens s key limit window now
  if new_tokens < 1 then
    let wait_time := (1 - new_tokens) / token_rate
    (s, (false, 0, pyTrunc wait_time + 1))
  else
    let nt := new_tokens - 1
    let max_idle := max (window * 2) 600
    let s2 : TokenStore :=
      { val := fun q =>
          if q = tokens_key then some nt
          else if q = timestamp_key then some now
          else s.val q,
        expiry := fun q =>
          if q = tokens_key ∨ q = timestamp_key then some max_idle
          else s.expiry q }
    (s2, (true, pyTrunc nt, 0))

/-- RateLimitStrategy enum of src/common/rate_limit.py. -/
inductive RateLimitStrategy where
  | fixedWindow : RateLimitStrategy
  | slidingWindow : RateLimitStrategy
  | tokenBucket : RateLimitStrategy
deriving DecidableEq

/-- RateLimitConfig of src/common/rate_limit.py lines 26-36 with the
source defaults (bucket_count 6). -/
structure RateLimitConfig where
  limit : Int := 100
  window : Int := 60
  strategy : RateLimitStrategy := RateLimitStrategy.slidingWindow
  bucket_count : Int := 6
deriving DecidableEq

/-- Python substring containment, the pattern-in-path test of the
middleware. -/
def strContains (hay pat : String) : Bool :=
  decide (pat.toList <:+: hay.toList)

/-- Config selection of RateLimitMiddleware.dispatch lines 294-306: start
from the default, replace it with the first endpoint pattern contained in
the path, then replace that with the method config whenever the request
method has one (the method lookup runs after the endpoint loop and
overwrites its choice). -/
def selectConfig (default_config : RateLimitConfig)
    (endpoint_configs : List (String × RateLimitConfig))
    (method_configs : List (String × RateLimitConfig))
    (path method : String) : RateLimitConfig :=
  let endpoint_choice :=
    match endpoint_configs.find? (fun p => strContains path p.1) with
    | some p => p.2
    | none => default_config
  match method_configs.lookup method with
  | some mc => mc
  | none => endpoint_choice

/-! CQRS buses, src/common/cqrs.py.  Handlers are modelled as functions
into Except (a raised exception is an error value); the command type used
as the dispatch key becomes a string identifier.  The circuit breaker
wrapping execute never records a failure because the wrapped body catches
every exception, so the breaker stays closed and the body result is always
returned. -/

/-- CommandResult of src/common/cqrs.py lines 23-28. -/
structure CommandResult where
  success : Bool
  message : Option String := none
  data : Option Json := none
  errors : Option (List String) := none

/-- CommandBus.execute, src/common/cqrs.py lines 106-138: dispatch on the
command runtime type; missing handler and handler exception both produce a
failure result, never an exception (the return type carries no error
case). -/
def CommandBus.execute
    (handlers : List (String × (Json → Except String CommandResult)))
    (command_type : String) (command : Json) : CommandResult :=
  match handlers.lookup command_type with
  | none =>
      { success := false,
        message := some ("No handler found for command: " ++ command_type) }
  | some handler =>
      match handler command with
      | Except.ok result => result
      | Except.error e =>
          { success := false,
            message := some ("Error executing command: " ++ e),
            errors := some [e] }

/-- Local delivery loop of EventBus.publish, src/common/cqrs.py lines
282-287: invoke every handler in list order, catching each error and
continuing; the list of per-handler outcomes is returned in order. -/
def runHandlers {α ε : Type} (event : α) :
    List (α → Except ε Unit) → List (Except ε Unit)
  | [] => []
  | h :: rest => h event :: runHandlers event rest

/-- EventBus.publish, src/common/cqrs.py lines 266-287: best-effort
external publish first (its failure is caught and logged), then local
delivery; the whole call is total. -/
def EventBus.publish {α ε : Type} (ext : Option (α → Except ε Unit))
    (handlers : List (α → Except ε Unit)) (event : α) :
    Option (Except ε Unit) × List (Except ε Unit) :=
  (ext.map (fun p => p event), runHandlers event handlers)

/-! Concrete instances used to evaluate the theorems below on explicit
inputs. -/

/-- Demo breaker configuration: two failures open, ten seconds recovery,
two successes close, two half-open trial slots. -/
def cbDemoConfig : CircuitBreakerConfig :=
  { failure_threshold := 2, recovery_timeout := 10,
    success_threshold := 2, half_open_max_requests := 2 }

/-- Demo breaker in the initial closed state. -/
def cbDemoClosed : CircuitBreaker := { name := "db", config := cbDemoConfig }

/-- Demo breaker opened by a failure stamped at time 3. -/
def cbDemoOpen : CircuitBreaker :=
  { name := "db", config := cbDemoConfig, state := CircuitState.open,
    last_failure_time := some 3 }

/-- Demo breaker freshly transitioned to half-open. -/
def cbDemoHalf : CircuitBreaker :=
  { name := "db", config := cbDemoConfig, state := CircuitState.halfOpen }

/-- Counter store with no keys. -/
def emptyCounterStore : CounterStore :=
  { val := fun _ => none, expiry := fun _ => none }

/-- Counter store holding counter 5 with a 30 second expiry under key k. -/
def fwDemoStore : CounterStore :=
  { val := fun q => if q = "k" then some 5 else none,
    expiry := fun q => if q = "k" then some 30 else none }

/-- Token store with an empty bucket (0 tokens) last updated at time 100. -/
def tbDemoStore : TokenStore :=
  { val := fun q =>
      if q = "k:tokens" then some 0
      else if q = "k:timestamp" then some 100
      else none,
    expiry := fun _ => none }


/-- C6: every fixed-window call increments the counter for the key, sets a
window-second expiry when the resulting count is 1, denies with remaining 0
and retry_after = TTL (or window when the TTL is non-positive) when the
count exceeds the limit, and otherwise allows with remaining = limit -
count and retry_after 0. -/
theorem fixed_window_spec (s : CounterStore) (key : String)
    (limit window : Int) :
    ((fixed_window s key limit window).1).val key
      = some ((s.val key).getD 0 + 1) ∧
    ((s.val key).getD 0 + 1 = 1 →
      ((fixed_window s key limit window).1).expiry key = some window) ∧
    ((s.val key).getD 0 + 1 > limit →
      (fixed_window s key limit window).2 =
        (false, 0,
         if ((fixed_window s key limit window).1).ttl key > 0
         then ((fixed_window s key limit window).1).ttl key
         else window)) ∧
    ((s.val key).getD 0 + 1 ≤ limit →
      (fixed_window s key limit window).2 =
        (true, limit - ((s.val key).getD 0 + 1), 0)) := by
  refine ⟨?_, ?_, ?_, ?_⟩
  · simp only [fixed_window, CounterStore.incr, CounterStore.expire]
    split <;> split <;> simp
  · intro h1
    simp only [fixed_window, CounterStore.incr]
    rw [if_pos h1]
    split <;> simp [CounterStore.expire]
  · intro hover
    simp only [fixed_window, CounterStore.incr]
    rw [if_pos hover]
  · intro hle
    simp only [fixed_window, CounterStore.incr]
    rw [if_neg (by omega)]

/-- C6 witness: a first request on an empty store sets the expiry and is
allowed with remaining 4 of 5; a sixth request against a stored count of 5
with TTL 30 is denied with retry_after 30. -/
theorem fixed_window_spec_witness :
    ((emptyCounterStore.val "k").getD 0 + 1 = 1) ∧
    ((fwDemoStore.val "k").getD 0 + 1 > 5) ∧
    (fixed_window emptyCounterStore "k" 5 60).1.expiry "k" = some 60 ∧
    (fixed_window emptyCounterStore "k" 5 60).2 = (true, 4, 0) ∧
    (fixed_window fwDemoStore "k" 5 60).2 = (false, 0, 30) := by
  refine ⟨by norm_num [emptyCounterStore], by norm_num [fwDemoStore],
    ?_, ?_, ?_⟩
  · exact (fixed_window_spec emptyCounterStore "k" 5 60).2.1
      (by norm_num [emptyCounterStore])
  · exact ((fixed_window_spec emptyCounterStore "k" 5 60).2.2.2
      (by norm_num [emptyCounterStore])).trans (by norm_num [emptyCounterStore])
  · refine ((fixed_window_spec fwDemoStore "k" 5 60).2.2.1
      (by norm_num [fwDemoStore])).trans ?_
    norm_num [fixed_window, fwDemoStore, CounterStore.incr,
      CounterStore.expire, CounterStore.ttl]

/-- C10: the sliding-window limiter computes bucket_size by integer floor
division window // bucket_count; whenever 0 ≤ window < bucket_count the
bucket size is 0 and the bucket-index division raises ZeroDivisionError
(modelled as none), so the function only completes under
bucket_count ≤ window (given a positive bucket count, such as the default
6 of RateLimitConfig). -/
theorem sliding_window_bucket_size_zero :
    (∀ (s : CounterStore) (key : String) (limit window bucket_count ts : Int),
        0 ≤ window → window < bucket_count →
        sliding_window s key limit window bucket_count ts = none) ∧
    (∀ (s : CounterStore) (key : String) (limit window bucket_count ts : Int),
        0 < bucket_count → bucket_count ≤ window →
        (sliding_window s key limit window bucket_count ts).isSome = true) := by
  constructor
  · intro s key limit window bc ts hw hlt
    have hbc : (0 : Int) < bc := lt_of_le_of_lt hw hlt
    have hfd : window.fdiv bc = 0 := by
      rw [Int.fdiv_eq_ediv _ (le_of_lt hbc)]
      exact Int.ediv_eq_zero_of_lt hw hlt
    unfold sliding_window
    rw [if_neg (by omega)]
    simp [hfd]
  · intro s key limit window bc ts hbc hle
    have hfd : 1 ≤ window.fdiv bc := by
      rw [Int.fdiv_eq_ediv _ (le_of_lt hbc)]
      exact (Int.le_ediv_iff_mul_le hbc).mpr (by omega)
    unfold sliding_window
    rw [if_neg (by omega), if_neg (by omega)]
    dsimp only
    split <;> rfl

/-- C10 witness: window 5 with the default bucket count 6 raises (none);
window 60 with bucket count 6 completes (isSome). -/
theorem sliding_window_bucket_size_zero_witness :
    sliding_window emptyCounterStore "k" 100 5 6 1000 = none ∧
    (sliding_window emptyCounterStore "k" 100 60 6 1000).isSome = true := by
  obtain ⟨h1, h2⟩ := sliding_window_bucket_size_zero
  exact ⟨h1 emptyCounterStore "k" 100 5 6 1000 (by norm_num) (by norm_num),
         h2 emptyCounterStore "k" 100 60 6 1000 (by norm_num) (by norm_num)⟩

/-- C3 counterexample: limit 2, window 1, stored tokens 0 last updated at
now = 100.  new_tokens = 0 < 1 and token_rate = 2, so the code returns
retry_after = int(0.5) + 1 = 1, while the claimed formula
ceil((1 - newTokens) / tokenRate) + 1 evaluates to 2. -/
theorem token_bucket_ceil_counterexample :
    refill_tokens tbDemoStore "k" 2 1 100 = 0 ∧
    (token_bucket tbDemoStore "k" 2 1 100).2 = (false, 0, 1) ∧
    ⌈(1 - refill_tokens tbDemoStore "k" 2 1 100) / ((2 : ℚ) / 1)⌉ + 1 = 2 ∧
    (1 : Int) ≠ 2 := by
  have h0 : refill_tokens tbDemoStore "k" 2 1 100 = 0 := by
    unfold refill_tokens
    rw [show tbDemoStore.val ("k" ++ ":tokens") = some 0 from rfl,
        show tbDemoStore.val ("k" ++ ":timestamp") = some 100 from rfl]
    norm_num [min_def]
  have hfl : (⌊(1 : ℚ) / 2⌋ : ℤ) = 0 := by
    rw [Int.floor_eq_iff]; norm_num
  have hcl : (⌈(1 : ℚ) / 2⌉ : ℤ) = 1 := by
    rw [Int.ceil_eq_iff]; norm_num
  refine ⟨h0, ?_, ?_, by decide⟩
  · simp only [token_bucket, h0]
    norm_num [pyTrunc, hfl]
  · rw [h0]
    norm_num [hcl]

/-- C3 amended: in the deny branch the code computes
retry_after = int(wait_time) + 1 where int() truncates toward zero, and
the wait time is positive, so retry_after is the FLOOR of
(1 - newTokens) / tokenRate plus one (which equals the ceiling only when
the quotient is an integer). -/
theorem token_bucket_deny_floor (s : TokenStore) (key : String)
    (limit window : Int) (now : ℚ)
    (hw : 0 < window) (hl : 0 < limit)
    (hnt : refill_tokens s key limit window now < 1) :
    (token_bucket s key limit window now).2 =
      (false, 0,
       ⌊(1 - refill_tokens s key limit window now) /
          ((limit : ℚ) / (window : ℚ))⌋ + 1) := by
  have hrate : (0 : ℚ) < (limit : ℚ) / (window : ℚ) := by
    apply div_pos <;> exact_mod_cast (by assumption)
  have hwait : (0 : ℚ) ≤ (1 - refill_tokens s key limit window now) /
      ((limit : ℚ) / (window : ℚ)) :=
    le_of_lt (div_pos (by linarith) hrate)
  simp only [token_bucket]
  rw [if_pos hnt]
  simp [pyTrunc, hwait]

/-- C3 witness: the amended formula evaluated on the concrete deny case
gives retry_after = floor(1/2) + 1 = 1. -/
theorem token_bucket_deny_floor_witness :
    (0 : Int) < 1 ∧ (0 : Int) < 2 ∧
    refill_tokens tbDemoStore "k" 2 1 100 < 1 ∧
    (token_bucket tbDemoStore "k" 2 1 100).2 = (false, 0, 1) := by
  have h0 : refill_tokens tbDemoStore "k" 2 1 100 = 0 := by
    unfold refill_tokens
    rw [show tbDemoStore.val ("k" ++ ":tokens") = some 0 from rfl,
        show tbDemoStore.val ("k" ++ ":timestamp") = some 100 from rfl]
    norm_num [min_def]
  have hfl : (⌊(1 : ℚ) / 2⌋ : ℤ) = 0 := by
    rw [Int.floor_eq_iff]; norm_num
  refine ⟨by decide, by decide, by rw [h0]; norm_num, ?_⟩
  refine (token_bucket_deny_floor tbDemoStore "k" 2 1 100 (by decide) (by decide)
    (by rw [h0]; norm_num)).trans ?_
  rw [h0]
  norm_num [hfl]

/-- C4 counterexample: endpoint pattern "/users" matches the path and the
request method GET has a method config; dispatch applies the METHOD
config (limit 20), not the endpoint config (limit 10) the claim
requires. -/
theorem config_selection_counterexample :
    strContains "/users/1" "/users" = true ∧
    selectConfig {} [("/users", { limit := 10 })] [("GET", { limit := 20 })]
        "/users/1" "GET" = { limit := 20 } ∧
    ({ limit := 20 } : RateLimitConfig) ≠ { limit := 10 } := by
  refine ⟨by decide, by decide, by decide⟩

/-- C4 amended: the method config is applied whenever the request method
has one (it is checked last and overwrites the endpoint choice); the first
matching endpoint-pattern config is applied only when no method config
matches; the default applies only when neither matches. -/
theorem config_selection_precedence (dc : RateLimitConfig)
    (ecs mcs : List (String × RateLimitConfig)) (path method : String) :
    (∀ mc, mcs.lookup method = some mc →
        selectConfig dc ecs mcs path method = mc) ∧
    (mcs.lookup method = none →
      ∀ p, ecs.find? (fun q => strContains path q.1) = some p →
        selectConfig dc ecs mcs path method = p.2) ∧
    (mcs.lookup method = none →
      ecs.find? (fun q => strContains path q.1) = none →
      selectConfig dc ecs mcs path method = dc) := by
  refine ⟨?_, ?_, ?_⟩
  · intro mc hmc
    simp [selectConfig, hmc]
  · intro hnone p hp
    simp [selectConfig, hnone, hp]
  · intro hnone hep
    simp [selectConfig, hnone, hep]

/-- C4 witness: the three precedence cases evaluated on concrete
configuration tables. -/
theorem config_selection_precedence_witness :
    selectConfig {} [("/users", { limit := 10 })] [("GET", { limit := 20 })]
        "/users/1" "GET" = { limit := 20 } ∧
    selectConfig {} [("/users", { limit := 10 })] [] "/users/1" "GET"
        = { limit := 10 } ∧
    selectConfig {} [] [] "/users/1" "GET" = {} := by
  refine ⟨(config_selection_precedence {} [("/users", { limit := 10 })]
      [("GET", { limit := 20 })] "/users/1" "GET").1 { limit := 20 } rfl,
    (config_selection_precedence {} [("/users", { limit := 10 })] []
      "/users/1" "GET").2.1 rfl ("/users", { limit := 10 }) (by decide),
    (config_selection_precedence {} [] [] "/users/1" "GET").2.2 rfl rfl⟩

/-- C7: EventBus.publish invokes every registered local handler exactly
once, in registration order: the outcome list has one entry per handler and
its i-th entry is the i-th registered handler applied to the event,
regardless of whether any earlier handler (or the external publish)
errored; the total return type shows no handler exception propagates to
the caller. -/
theorem publish_invokes_all_in_order {α ε : Type}
    (ext : Option (α → Except ε Unit))
    (handlers : List (α → Except ε Unit)) (event : α) :
    ((EventBus.publish ext handlers event).2).length = handlers.length ∧
    ∀ i : Nat, ((EventBus.publish ext handlers event).2)[i]? =
      (handlers[i]?).map (fun h => h event) := by
  have hrun : ∀ hs : List (α → Except ε Unit),
      runHandlers event hs = hs.map (fun h => h event) := by
    intro hs
    induction hs with
    | nil => rfl
    | cons h t ih => simp [runHandlers, ih]
  constructor
  · simp [EventBus.publish, hrun]
  · intro i
    simp [EventBus.publish, hrun]

/-- C8: CommandBus.execute is a total function (its return type carries no
error case, matching the source where every exception is caught): with no
handler registered for the command type it returns a failure result with a
descriptive message, and when the handler raises it returns a failure
result carrying the error text. -/
theorem execute_returns_failure_result
    (handlers : List (String × (Json → Except String CommandResult)))
    (ct : String) (cmd : Json) :
    (handlers.lookup ct = none →
      CommandBus.execute handlers ct cmd =
        { success := false,
          message := some ("No handler found for command: " ++ ct) }) ∧
    (∀ h e, handlers.lookup ct = some h → h cmd = Except.error e →
      CommandBus.execute handlers ct cmd =
        { success := false,
          message := some ("Error executing command: " ++ e),
          errors := some [e] }) := by
  constructor
  · intro hn
    simp [CommandBus.execute, hn]
  · intro h e hl he
    simp [CommandBus.execute, hl, he]

/-- C8 witness: a missing handler and a raising handler both evaluate to
failure results on concrete inputs. -/
theorem execute_returns_failure_result_witness :
    (([("CreateUser", fun _ => Except.error "boom")] :
        List (String × (Json → Except String CommandResult))).lookup
          "Missing" = none) ∧
    CommandBus.execute [("CreateUser", fun _ => Except.error "boom")]
        "Missing" Json.null =
      { success := false,
        message := some "No handler found for command: Missing" } ∧
    CommandBus.execute [("CreateUser", fun _ => Except.error "boom")]
        "CreateUser" Json.null =
      { success := false,
        message := some "Error executing command: boom",
        errors := some ["boom"] } := by
  refine ⟨rfl, ?_, ?_⟩
  · exact ((execute_returns_failure_result
      [("CreateUser", fun _ => Except.error "boom")] "Missing" Json.null).1
        rfl).trans rfl
  · exact ((execute_returns_failure_result
      [("CreateUser", fun _ => Except.error "boom")] "CreateUser" Json.null).2
        (fun _ => Except.error "boom") "boom" rfl rfl).trans rfl

end QuestLog

namespace QuestLog

theorem readState_of_closed (cb : CircuitBreaker) (now : ℚ)
    (h : cb.state = CircuitState.closed) :
    readState cb now = (cb, CircuitState.closed) := by
  obtain ⟨nm, cfg, st, fc, sc, lft, hor⟩ := cb
  dsimp at h
  subst h
  cases lft <;> rfl

theorem readState_of_halfOpen (cb : CircuitBreaker) (now : ℚ)
    (h : cb.state = CircuitState.halfOpen) :
    readState cb now = (cb, CircuitState.halfOpen) := by
  obtain ⟨nm, cfg, st, fc, sc, lft, hor⟩ := cb
  dsimp at h
  subst h
  cases lft <;> rfl

theorem record_failure_of_closed (cb : CircuitBreaker) (now : ℚ)
    (h : cb.state = CircuitState.closed) :
    record_failure cb now =
      if cb.failure_count + 1 ≥ cb.config.failure_threshold then
        { cb with state := CircuitState.open,
                  failure_count := cb.failure_count + 1,
                  last_failure_time := some now }
      else { cb with failure_count := cb.failure_count + 1,
                     last_failure_time := some now } := by
  have h2 : ({ cb with last_failure_time := some now } : CircuitBreaker).state
      = CircuitState.closed := h
  unfold record_failure
  rw [readState_of_closed _ now h2]

theorem readState_of_open (cb : CircuitBreaker) (now : ℚ)
    (h : cb.state = CircuitState.open) (t : ℚ)
    (ht : cb.last_failure_time = some t) :
    readState cb now =
      if t ≠ 0 ∧ now - t ≥ cb.config.recovery_timeout then
        ({ cb with state := CircuitState.halfOpen, half_open_requests := 0 },
         CircuitState.halfOpen)
      else (cb, CircuitState.open) := by
  obtain ⟨nm, cfg, st, fc, sc, lft, hor⟩ := cb
  dsimp at h ht
  subst h
  subst ht
  rfl

theorem record_failure_of_open (cb : CircuitBreaker) (now : ℚ)
    (h : cb.state = CircuitState.open) :
    (record_failure cb now).state = CircuitState.open := by
  have h2 : ({ cb with last_failure_time := some now } : CircuitBreaker).state
      = CircuitState.open := h
  unfold record_failure
  rw [readState_of_open _ now h2 now rfl]
  split
  · rfl
  · exact h

theorem record_failure_of_halfOpen (cb : CircuitBreaker) (now : ℚ)
    (h : cb.state = CircuitState.halfOpen) :
    record_failure cb now =
      { cb with state := CircuitState.open, success_count := 0,
                last_failure_time := some now } := by
  have h2 : ({ cb with last_failure_time := some now } : CircuitBreaker).state
      = CircuitState.halfOpen := h
  unfold record_failure
  rw [readState_of_halfOpen _ now h2]

theorem record_success_of_closed (cb : CircuitBreaker) (now : ℚ)
    (h : cb.state = CircuitState.closed) :
    record_success cb now = { cb with failure_count := 0 } := by
  unfold record_success
  rw [readState_of_closed _ now h]

theorem record_success_of_halfOpen (cb : CircuitBreaker) (now : ℚ)
    (h : cb.state = CircuitState.halfOpen) :
    record_success cb now =
      if cb.success_count + 1 ≥ cb.config.success_threshold then
        { cb with state := CircuitState.closed,
                  failure_count := 0, success_count := 0 }
      else { cb with success_count := cb.success_count + 1 } := by
  unfold record_success
  rw [readState_of_halfOpen _ now h]

theorem allow_request_of_halfOpen (cb : CircuitBreaker) (now : ℚ)
    (h : cb.state = CircuitState.halfOpen) :
    allow_request cb now =
      if cb.half_open_requests < cb.config.half_open_max_requests then
        ({ cb with half_open_requests := cb.half_open_requests + 1 }, true)
      else (cb, false) := by
  unfold allow_request
  rw [readState_of_halfOpen _ now h]

theorem iterFailures_invariant (cb : CircuitBreaker) (now : ℚ)
    (h : cb.state = CircuitState.closed) :
    ∀ k, (iterFailures cb now k).state = CircuitState.open ∨
      ((iterFailures cb now k).state = CircuitState.closed ∧
       (iterFailures cb now k).config = cb.config ∧
       (iterFailures cb now k).failure_count = cb.failure_count + k ∧
       (k = 0 ∨ cb.failure_count + k < cb.config.failure_threshold))
  | 0 => Or.inr ⟨h, rfl, rfl, Or.inl rfl⟩
  | k + 1 => by
    rcases iterFailures_invariant cb now h k with hopen | ⟨hst, hcfg, hfc, _⟩
    · exact Or.inl (record_failure_of_open _ now hopen)
    · simp only [iterFailures]
      rw [record_failure_of_closed _ now hst]
      by_cases hthr : (iterFailures cb now k).failure_count + 1 ≥
          (iterFailures cb now k).config.failure_threshold
      · rw [if_pos hthr]
        exact Or.inl rfl
      · rw [if_neg hthr]
        refine Or.inr ⟨hst, hcfg, ?_, Or.inr ?_⟩
        · show (iterFailures cb now k).failure_count + 1 = _
          omega
        · rw [hfc, hcfg] at hthr
          omega

theorem iterSuccesses_invariant (cb : CircuitBreaker) (now : ℚ)
    (h : cb.state = CircuitState.halfOpen) :
    ∀ k, ((iterSuccesses cb now k).state = CircuitState.closed ∧
          (iterSuccesses cb now k).failure_count = 0 ∧
          (iterSuccesses cb now k).success_count = 0) ∨
      ((iterSuccesses cb now k).state = CircuitState.halfOpen ∧
       (iterSuccesses cb now k).config = cb.config ∧
       (iterSuccesses cb now k).success_count = cb.success_count + k ∧
       (k = 0 ∨ cb.success_count + k < cb.config.success_threshold))
  | 0 => Or.inr ⟨h, rfl, rfl, Or.inl rfl⟩
  | k + 1 => by
    rcases iterSuccesses_invariant cb now h k with ⟨hst, hfc, hsc⟩ | ⟨hst, hcfg, hsc, _⟩
    · refine Or.inl ?_
      simp only [iterSuccesses]
      rw [record_success_of_closed _ now hst]
      exact ⟨hst, rfl, hsc⟩
    · simp only [iterSuccesses]
      rw [record_success_of_halfOpen _ now hst]
      by_cases hthr : (iterSuccesses cb now k).success_count + 1 ≥
          (iterSuccesses cb now k).config.success_threshold
      · rw [if_pos hthr]
        exact Or.inl ⟨rfl, rfl, rfl⟩
      · rw [if_neg hthr]
        refine Or.inr ⟨hst, hcfg, ?_, Or.inr ?_⟩
        · show (iterSuccesses cb now k).success_count + 1 = _
          omega
        · rw [hsc, hcfg] at hthr
          omega

theorem iterAllow_invariant (cb : CircuitBreaker) (now : ℚ)
    (h : cb.state = CircuitState.halfOpen)
    (h0 : cb.half_open_requests = 0) :
    ∀ n, (iterAllow cb now n).state = CircuitState.halfOpen ∧
         (iterAllow cb now n).config = cb.config ∧
         (iterAllow cb now n).half_open_requests =
           min n cb.config.half_open_max_requests
  | 0 => ⟨h, rfl, by simp [iterAllow, h0]⟩
  | n + 1 => by
    obtain ⟨hst, hcfg, hhor⟩ := iterAllow_invariant cb now h h0 n
    simp only [iterAllow]
    rw [allow_request_of_halfOpen _ now hst]
    by_cases hlt : (iterAllow cb now n).half_open_requests <
        (iterAllow cb now n).config.half_open_max_requests
    · rw [if_pos hlt]
      refine ⟨hst, hcfg, ?_⟩
      show (iterAllow cb now n).half_open_requests + 1 = _
      rw [hhor, hcfg] at hlt
      rw [hhor]
      omega
    · rw [if_neg hlt]
      refine ⟨hst, hcfg, ?_⟩
      show (iterAllow cb now n).half_open_requests = _
      rw [hhor, hcfg] at hlt
      rw [hhor]
      omega

theorem circuit_breaker_state_machine :
    (∀ (cb : CircuitBreaker) (now : ℚ), cb.state = CircuitState.closed →
       1 ≤ cb.config.failure_threshold →
       (iterFailures cb now cb.config.failure_threshold).state = CircuitState.open) ∧
    (∀ (cb : CircuitBreaker) (now t : ℚ), cb.state = CircuitState.open →
       cb.last_failure_time = some t → t ≠ 0 →
       now - t ≥ cb.config.recovery_timeout →
       (readState cb now).2 = CircuitState.halfOpen) ∧
    (∀ (cb : CircuitBreaker) (now : ℚ), cb.state = CircuitState.halfOpen →
       1 ≤ cb.config.success_threshold →
       (iterSuccesses cb now cb.config.success_threshold).state = CircuitState.closed ∧
       (iterSuccesses cb now cb.config.success_threshold).failure_count = 0 ∧
       (iterSuccesses cb now cb.config.success_threshold).success_count = 0) ∧
    (∀ (cb : CircuitBreaker) (now : ℚ), cb.state = CircuitState.halfOpen →
       (record_failure cb now).state = CircuitState.open ∧
       (record_failure cb now).success_count = 0) := by
  refine ⟨?_, ?_, ?_, ?_⟩
  · intro cb now h h1
    rcases iterFailures_invariant cb now h cb.config.failure_threshold with ho | ⟨_, _, _, hk⟩
    · exact ho
    · exfalso
      rcases hk with h0 | hlt <;> omega
  · intro cb now t h ht htz htime
    rw [readState_of_open cb now h t ht, if_pos ⟨htz, htime⟩]
  · intro cb now h h1
    rcases iterSuccesses_invariant cb now h cb.config.success_threshold with hc | ⟨_, _, _, hk⟩
    · exact hc
    · exfalso
      rcases hk with h0 | hlt <;> omega
  · intro cb now h
    rw [record_failure_of_halfOpen cb now h]
    exact ⟨rfl, rfl⟩

theorem half_open_allow_quota (cb : CircuitBreaker) (now : ℚ)
    (h : cb.state = CircuitState.halfOpen)
    (h0 : cb.half_open_requests = 0) (n : ℕ) :
    nthAllow cb now n = decide (n < cb.config.half_open_max_requests) := by
  obtain ⟨hst, hcfg, hhor⟩ := iterAllow_invariant cb now h h0 n
  unfold nthAllow
  rw [allow_request_of_halfOpen _ now hst]
  by_cases hlt : (iterAllow cb now n).half_open_requests <
      (iterAllow cb now n).config.half_open_max_requests
  · rw [if_pos hlt]
    rw [hhor, hcfg] at hlt
    have hn : n < cb.config.half_open_max_requests := by omega
    simp [hn]
  · rw [if_neg hlt]
    rw [hhor, hcfg] at hlt
    have hn : ¬ n < cb.config.half_open_max_requests := by omega
    simp [hn]

theorem circuit_breaker_state_machine_witness :
    cbDemoClosed.state = CircuitState.closed ∧
    1 ≤ cbDemoClosed.config.failure_threshold ∧
    (iterFailures cbDemoClosed 5 cbDemoClosed.config.failure_threshold).state
      = CircuitState.open ∧
    (readState cbDemoOpen 13).2 = CircuitState.halfOpen ∧
    (iterSuccesses cbDemoHalf 5 cbDemoHalf.config.success_threshold).state
      = CircuitState.closed ∧
    (record_failure cbDemoHalf 5).state = CircuitState.open := by
  obtain ⟨h1, h2, h3, h4⟩ := circuit_breaker_state_machine
  refine ⟨rfl, by decide, h1 cbDemoClosed 5 rfl (by decide),
    h2 cbDemoOpen 13 3 rfl rfl (by norm_num) ?_,
    (h3 cbDemoHalf 5 rfl (by decide)).1,
    (h4 cbDemoHalf 5 rfl).1⟩
  show (13 : ℚ) - 3 ≥ cbDemoOpen.config.recovery_timeout
  norm_num [cbDemoOpen, cbDemoConfig]

theorem half_open_allow_quota_witness :
    cbDemoHalf.state = CircuitState.halfOpen ∧
    cbDemoHalf.half_open_requests = 0 ∧
    nthAllow cbDemoHalf 5 0 = true ∧
    nthAllow cbDemoHalf 5 1 = true ∧
    nthAllow cbDemoHalf 5 2 = false := by
  refine ⟨rfl, rfl, ?_, ?_, ?_⟩
  · exact (half_open_allow_quota cbDemoHalf 5 rfl rfl 0).trans (by decide)
  · exact (half_open_allow_quota cbDemoHalf 5 rfl rfl 1).trans (by decide)
  · exact (half_open_allow_quota cbDemoHalf 5 rfl rfl 2).trans (by decide)

/-- C9: serializing a Message to the wire JSON format and deserializing it
back reproduces a message with identical id, type, name, data,
correlation_id and reply_to. -/
theorem message_wire_roundtrip (m : Message) :
    Message.fromWire (Message.toWire m) = some m := by
  cases m with
  | mk i t n d c r =>
    cases t <;> cases c <;> cases r <;> rfl

/-- C1: on a concrete query round trip the code diverges from the claim.
send_query registers its future under the fresh correlation id cid-1, but
_handle_query publishes the Response under the query MESSAGE id mid-1
(body.get("id")), so _process_response finds no matching future: the
pending map is unchanged and nothing resolves, while the claim requires
the response to carry cid-1 and resolve the future. -/
theorem query_response_correlation_mismatch :
    (handle_query_response
        (send_query_message "get_user" (Json.num 7) "cid-1" "svc_callback_q"
          "mid-1")
        (Json.str "payload") "mid-2").amqp_correlation_id = some "mid-1" ∧
    (handle_query_response
        (send_query_message "get_user" (Json.num 7) "cid-1" "svc_callback_q"
          "mid-1")
        (Json.str "payload") "mid-2").body.correlation_id = some "mid-1" ∧
    (send_query_message "get_user" (Json.num 7) "cid-1" "svc_callback_q"
        "mid-1").correlation_id = some "cid-1" ∧
    process_response (register_future [] "cid-1")
        (handle_query_response
          (send_query_message "get_user" (Json.num 7) "cid-1" "svc_callback_q"
            "mid-1")
          (Json.str "payload") "mid-2").amqp_correlation_id
        (Message.toWire
          (handle_query_response
            (send_query_message "get_user" (Json.num 7) "cid-1"
              "svc_callback_q" "mid-1")
            (Json.str "payload") "mid-2").body) = (["cid-1"], none) := by
  refine ⟨rfl, rfl, rfl, ?_⟩
  simp [process_response, register_future, send_query_message,
        handle_query_response]

end QuestLog
